import Mathlib

/-!
Verification of the billing data-access layer: run registry, snapshot
resolver, run selector, aggregation engine and result cache, embedded
from `billing/models_calculation.py`, `billing/services/data_access.py`
and `billing/services/data_access_service.py`.

Numeric cell values are modelled as `Option ℚ` (`none` = missing / NaN);
column sums skip missing values, as pandas `sum` does.  The filesystem,
and the contents of parquet files, are explicit parameters (a `World`).
-/

namespace Billing

/-- Lifecycle status of a calculation run (`CalculationRun.STATUS_CHOICES`). -/
inductive Status where
  | processing
  | completed
  | failed
  | updated
deriving DecidableEq, Repr

/-- A row of the `CalculationRun` table (`billing/models_calculation.py`).
Only the fields read by the services under verification are carried. -/
structure Run where
  run_id : String
  created_at : Nat
  updated_at : Nat
  status : Status
  is_archived : Bool
  data_directory : String
  period_string : String
deriving DecidableEq, Repr

/-- A row of the `UserDashboardPreference` table; `preferred_run` stores the
foreign key (a run id), `none` when NULL. -/
structure Pref where
  user_identifier : String
  preferred_run : Option String
deriving DecidableEq, Repr

/-- Database state: the two tables the services query. -/
structure DB where
  runs : List Run
  prefs : List Pref
deriving DecidableEq, Repr

/-- `CalculationRun.objects.get(run_id=rid)`, as an optional lookup. -/
def findRun (db : DB) (rid : String) : Option Run :=
  db.runs.find? (fun r => r.run_id == rid)

/-- `UserDashboardPreference.objects.get(user_identifier=uid)`, as an
optional lookup. -/
def findPref (db : DB) (uid : String) : Option Pref :=
  db.prefs.find? (fun p => p.user_identifier == uid)

/-- Dereference a preference's `preferred_run` foreign key. -/
def derefPref (db : DB) (p : Pref) : Option Run :=
  p.preferred_run.bind (findRun db)

/-- The save of an existing preference record: the single row whose
`user_identifier` is `uid` is repointed at `rid` (both setter methods
share this update shape). -/
def set_pref_update (ps : List Pref) (uid rid : String) : List Pref :=
  ps.map (fun p => if p.user_identifier == uid then { p with preferred_run := some rid } else p)

/-- The create half of get-or-create: the fresh preference row. -/
def set_pref_create (uid rid : String) : Pref :=
  { user_identifier := uid, preferred_run := some rid }

/-- Python exceptions that the services raise or catch: the ORM's
`DoesNotExist`, and the `TypeError` raised when a non-callable value is
called. -/
inductive PyError where
  | doesNotExist
  | typeError (msg : String)
deriving DecidableEq, Repr

/-- The exception raised by `run.is_data_available()` in
`data_access_service.py`: `is_data_available` is a `@property`, so the
expression evaluates the property to a `bool` and then calls it. -/
def boolNotCallable : PyError := .typeError "bool object is not callable"

/-- Filesystem state: which directories and files exist. -/
structure FS where
  dirs : List String
  files : List String
deriving DecidableEq, Repr

def FS.dirExists (fs : FS) (d : String) : Bool := fs.dirs.contains d

def FS.fileExists (fs : FS) (p : String) : Bool := fs.files.contains p

def MEDIA_ROOT : String := "media"

/-- `CalculationRun.data_path`: `MEDIA_ROOT / data_directory`. -/
def data_path (run : Run) : String := MEDIA_ROOT ++ "/" ++ run.data_directory

/-- Path of the `updated` physical version of a logical table. -/
def updated_path (run : Run) (base : String) : String :=
  data_path run ++ "/" ++ base ++ "_updated.parquet"

/-- Path of the `initial` physical version of a logical table. -/
def initial_path (run : Run) (base : String) : String :=
  data_path run ++ "/" ++ base ++ "_initial.parquet"

/-- `CalculationRun.is_data_available`: the directory and both initial
snapshots (result, employee_summary) exist. -/
def is_data_available (fs : FS) (run : Run) : Bool :=
  fs.dirExists (data_path run) &&
  fs.fileExists (initial_path run "result") &&
  fs.fileExists (initial_path run "employee_summary")

/-- `CalculationRun.has_updates`: an updated result snapshot exists. -/
def has_updates (fs : FS) (run : Run) : Bool :=
  fs.fileExists (updated_path run "result")

/-- `CalculationRun.get_latest_parquet`: the updated file if it exists,
else the initial file, else `none`. -/
def get_latest_parquet (fs : FS) (run : Run) (base : String) : Option String :=
  if fs.fileExists (updated_path run base) then some (updated_path run base)
  else if fs.fileExists (initial_path run base) then some (initial_path run base)
  else none

/-- A row of the `result` snapshot table.  The schema columns `Libelle
projet`, `Estimees`, `Adjusted Cost`, `Ecart` are always present (the
overall KPIs index them directly); cells are `Option ℚ` so `none` models a
NaN or absent entry read back as missing. -/
structure ResultRow where
  libelle : String
  estimees : Option ℚ
  adjusted_cost : Option ℚ
  ecart : Option ℚ
  total_heures : Option ℚ
  adjusted_hours : Option ℚ
  heures_retirees : Option ℚ
deriving DecidableEq, Repr

/-- A row of the `employee_summary` snapshot table. -/
structure EmpRow where
  libelle : String
  nom : String
  total : Option ℚ
  rate : Option ℚ
  total_heures : Option ℚ
deriving DecidableEq, Repr

/-- The `employee_summary` snapshot: the `Total`, `Rate` and `Total Heures`
columns are optional (the engine guards each with an `in columns` check),
so their presence is tracked explicitly. -/
structure EmpTable where
  hasTotal : Bool
  hasRate : Bool
  hasHeures : Bool
  rows : List EmpRow
deriving DecidableEq, Repr

/-- A row of the `adjusted` snapshot table. -/
structure AdjRow where
  id : String
  nom : String
  grade : String
  libelle : String
  total_heures : Option ℚ
  adjusted_hours : Option ℚ
  rate : Option ℚ
  total : Option ℚ
  adjusted_cost : Option ℚ
  heures_retirees : Option ℚ
deriving DecidableEq, Repr

/-- pandas column sum: missing values are skipped (an all-missing or empty
column sums to 0). -/
def column_sum (vals : List (Option ℚ)) : ℚ :=
  (vals.map (fun v => v.getD 0)).sum

/-- `safe_float` from `load_dashboard_data`: missing / non-numeric → 0. -/
def safe_float (v : Option ℚ) : ℚ := v.getD 0

/-- External world: the filesystem plus the contents behind each parquet
path (reads may fail, modelling `pd.read_parquet` exceptions). -/
structure World where
  fs : FS
  readResult : String → Except String (List ResultRow)
  readEmp : String → Except String EmpTable
  readAdj : String → Except String (List AdjRow)

/-- `pd.read_parquet` applied to a possibly-`None` path: a `None` path
raises (TypeError), otherwise the world answers. -/
def read_result (w : World) : Option String → Except String (List ResultRow)
  | none => .error "TypeError: path is None"
  | some p => w.readResult p

def read_emp (w : World) : Option String → Except String EmpTable
  | none => .error "TypeError: path is None"
  | some p => w.readEmp p

def read_adj (w : World) : Option String → Except String (List AdjRow)
  | none => .error "TypeError: path is None"
  | some p => w.readAdj p

/-- `order_by('-created_at')`: newest first. -/
def sort_by_created_desc (rs : List Run) : List Run :=
  List.insertionSort (fun a b => b.created_at ≤ a.created_at) rs

/-- `load_summary_data` output (`models_calculation.py`). -/
structure Summary where
  projects : Nat
  employees : Nat
  budget : ℚ
  adjusted_cost : ℚ
  variance : ℚ
deriving DecidableEq, Repr

/-- `CalculationRun.load_summary_data`: read the latest result and
employee-summary snapshots; any missing file or failed read yields `none`
(the method catches all exceptions). -/
def load_summary_data (w : World) (run : Run) : Option Summary :=
  match get_latest_parquet w.fs run "result", get_latest_parquet w.fs run "employee_summary" with
  | some rf, some ef =>
    match w.readResult rf, w.readEmp ef with
    | .ok rdf, .ok edf =>
      some { projects := rdf.length
             employees := (edf.rows.map (fun r => r.nom)).dedup.length
             budget := column_sum (rdf.map (fun r => r.estimees))
             adjusted_cost := column_sum (rdf.map (fun r => r.adjusted_cost))
             variance := column_sum (rdf.map (fun r => r.ecart)) }
    | _, _ => none
  | _, _ => none

/-! ## `billing/services/data_access.py` (`DataAccessService`, static methods) -/

namespace data_access

/-- `get_available_runs`: status in {completed, updated}, not archived,
newest first. -/
def get_available_runs (db : DB) : List Run :=
  sort_by_created_desc (db.runs.filter
    (fun r => decide ((r.status = .completed ∨ r.status = .updated) ∧ r.is_archived = false)))

/-- `get_latest_run`: `.first()` of the same queryset as
`get_available_runs`. -/
def get_latest_run (db : DB) : Option Run :=
  (get_available_runs db).head?

/-- `get_preferred_run`: the user's stored preference when it points at a
run whose data is available (status is not inspected), else the latest
run; a missing preference record is caught (`DoesNotExist`) and also
falls back to the latest run. -/
def get_preferred_run (db : DB) (fs : FS) (uid : String) : Option Run :=
  match findPref db uid with
  | some prefs =>
    match derefPref db prefs with
    | some r => if is_data_available fs r then some r else get_latest_run db
    | none => get_latest_run db
  | none => get_latest_run db

/-- `set_preferred_run`: validates the run id, then get-or-creates the
user's single preference record and points it at the run.  Returns the
updated database and the success flag. -/
def set_preferred_run (db : DB) (uid rid : String) : DB × Bool :=
  match findRun db rid with
  | none => (db, false)
  | some _run =>
    match findPref db uid with
    | some _ => ({ db with prefs := set_pref_update db.prefs uid rid }, true)
    | none => ({ db with prefs := db.prefs ++ [set_pref_create uid rid] }, true)

/-- The run-selection step of `get_dashboard_context`: an explicit run id
is looked up directly (`None` when not found — no fallback), otherwise
the preferred-run chain decides. -/
def dashboard_context_run (db : DB) (fs : FS) (uid : String) (run_id : Option String) : Option Run :=
  match run_id with
  | some rid => findRun db rid
  | none => get_preferred_run db fs uid

/-- The employee-summary slice of one project (`employee_summary_df`
filtered on `Libelle projet`); column presence is unchanged. -/
def emp_slice (emp : EmpTable) (label : String) : EmpTable :=
  { emp with rows := emp.rows.filter (fun r => r.libelle == label) }

/-- The realized-total-cost computation of `load_dashboard_data`
(lines 157–186): the explicit `Total` column sum when positive, else the
`Rate × Total Heures` sum when positive, else an estimate from realized
hours (rate = adjusted cost / adjusted hours, default 500), else 80% of
the estimated budget. -/
def project_total_cost (slice : EmpTable) (heures_reelles heures_ajustees adjusted_cost budget_estime : ℚ) : ℚ :=
  let cost₀ : ℚ :=
    if slice.hasTotal = true ∧ 0 < slice.rows.length then
      let total_sum := column_sum (slice.rows.map (fun r => r.total))
      if 0 < total_sum then total_sum else 0
    else 0
  let cost₁ : ℚ :=
    if cost₀ = 0 ∧ slice.hasRate = true ∧ slice.hasHeures = true then
      let manual_calc := (slice.rows.map (fun r => r.rate.getD 0 * r.total_heures.getD 0)).sum
      if 0 < manual_calc then manual_calc else cost₀
    else cost₀
  if cost₁ = 0 then
    if 0 < heures_reelles then
      let estimated_rate := if 0 < heures_ajustees then adjusted_cost / heures_ajustees else 500
      heures_reelles * estimated_rate
    else budget_estime * (8 / 10)
  else cost₁

/-- `sorted(list(result_df[..].unique()))`: the distinct project labels,
sorted lexicographically. -/
def projects_list_of (result_df : List ResultRow) : List String :=
  List.insertionSort (fun a b : String => a ≤ b) ((result_df.map (fun r => r.libelle)).dedup)

/-- `result_df[result_df[..] == projet_name].iloc[0]`: the first result
row carrying the label. -/
def project_row (result_df : List ResultRow) (label : String) : Option ResultRow :=
  result_df.find? (fun r => r.libelle == label)

/-- Overall KPI block of `load_dashboard_data`. -/
structure OverallKpis where
  nbEmployes : Nat
  totalBudgetEstime : ℚ
  totalAdjustedCost : ℚ
  totalEcart : ℚ
  totalProjects : Nat
  pctAjustement : ℚ
deriving DecidableEq, Repr

/-- Overall KPIs: sums run over every row of `result_df`. -/
def overall_kpis_of (result_df : List ResultRow) (emp : EmpTable) (plist : List String) : OverallKpis :=
  let totalBudget := column_sum (result_df.map (fun r => r.estimees))
  let totalEcart := column_sum (result_df.map (fun r => r.ecart))
  { nbEmployes := (emp.rows.map (fun r => r.nom)).dedup.length
    totalBudgetEstime := totalBudget
    totalAdjustedCost := column_sum (result_df.map (fun r => r.adjusted_cost))
    totalEcart := totalEcart
    totalProjects := plist.length
    pctAjustement := if totalBudget = 0 then 0 else totalEcart / totalBudget * 100 }

/-- Per-project KPI block of `load_dashboard_data`. -/
structure ProjectKpis where
  nbEmployes : Nat
  totalBudgetEstime : ℚ
  totalAdjustedCost : ℚ
  totalEcart : ℚ
  pctAjustement : ℚ
  heuresReelles : ℚ
  heuresAjustees : ℚ
  heuresRetirees : ℚ
deriving DecidableEq, Repr

/-- Per-project KPIs, all scalar fields taken from the single result row
selected by `project_row`. -/
def project_kpis (emp : EmpTable) (label : String) (row : ResultRow) : ProjectKpis :=
  let budget_estime := safe_float row.estimees
  let ecart := safe_float row.ecart
  { nbEmployes := ((emp_slice emp label).rows.map (fun r => r.nom)).dedup.length
    totalBudgetEstime := budget_estime
    totalAdjustedCost := safe_float row.adjusted_cost
    totalEcart := ecart
    pctAjustement := if budget_estime = 0 then 0 else ecart / budget_estime * 100
    heuresReelles := safe_float row.total_heures
    heuresAjustees := safe_float row.adjusted_hours
    heuresRetirees := safe_float row.heures_retirees }

/-- One projected employee entry (`_get_project_employees`); cell values
pass through unconverted (`float` of a NaN stays NaN, modelled `none`). -/
structure EmployeeEntry where
  id : String
  nom : String
  grade : String
  total_heures : Option ℚ
  adjusted_hours : Option ℚ
  rate : Option ℚ
  total_cost : Option ℚ
  adjusted_cost : Option ℚ
  heures_retirees : Option ℚ
deriving DecidableEq, Repr

/-- `_get_project_employees`: the adjusted table filtered to one project,
projected to a fixed field set. -/
def get_project_employees (adjusted_df : List AdjRow) (projet_name : String) : List EmployeeEntry :=
  (adjusted_df.filter (fun r => r.libelle == projet_name)).map (fun row =>
    { id := row.id
      nom := row.nom
      grade := row.grade
      total_heures := row.total_heures
      adjusted_hours := row.adjusted_hours
      rate := row.rate
      total_cost := row.total
      adjusted_cost := row.adjusted_cost
      heures_retirees := row.heures_retirees })

/-- One row of `table_projets`. -/
structure TableRow where
  libelle_projet : String
  total_heures : ℚ
  adjusted_hours : ℚ
  adjusted_cost : ℚ
  heures_retirees : ℚ
  estimees : ℚ
  ecart : ℚ
  total : ℚ
deriving DecidableEq, Repr

/-- The `table_projets` entry of one project, with `Total` via the
realized-cost fallback chain. -/
def mk_table_row (emp : EmpTable) (label : String) (row : ResultRow) : TableRow :=
  let budget_estime := safe_float row.estimees
  let adjusted_cost := safe_float row.adjusted_cost
  let heures_reelles := safe_float row.total_heures
  let heures_ajustees := safe_float row.adjusted_hours
  { libelle_projet := label
    total_heures := heures_reelles
    adjusted_hours := heures_ajustees
    adjusted_cost := adjusted_cost
    heures_retirees := safe_float row.heures_retirees
    estimees := budget_estime
    ecart := safe_float row.ecart
    total := project_total_cost (emp_slice emp label) heures_reelles heures_ajustees adjusted_cost budget_estime }

/-- `projects_data[label]`. -/
structure ProjectData where
  kpis : ProjectKpis
  employee_data : List EmployeeEntry
deriving DecidableEq, Repr

def mk_project_data (emp : EmpTable) (adjusted_df : List AdjRow) (label : String) (row : ResultRow) : ProjectData :=
  { kpis := project_kpis emp label row
    employee_data := get_project_employees adjusted_df label }

/-- `run_info` block of the dashboard payload. -/
structure RunInfo where
  run_id : String
  period : String
  created_at : Nat
  status : Status
  run_has_updates : Bool
deriving DecidableEq, Repr

/-- The successful payload of `load_dashboard_data`. -/
structure Payload where
  run_info : RunInfo
  overall_kpis : OverallKpis
  projects_list : List String
  projects_data : List (String × ProjectData)
  table_projets : List TableRow
deriving Repr

/-- The tagged result of `load_dashboard_data`: either
`data_available = False` with an error string, or the full payload. -/
inductive Dashboard where
  | unavailable (error : String)
  | available (payload : Payload)
deriving Repr

def Dashboard.data_available : Dashboard → Bool
  | .unavailable _ => false
  | .available _ => true

/-- `load_dashboard_data`: unavailable when the run is `None` or its data
is missing; every read failure is caught and tagged; otherwise the full
aggregate payload is assembled. -/
def load_dashboard_data (w : World) (run? : Option Run) : Dashboard :=
  match run? with
  | none => .unavailable "No data available"
  | some run =>
    if is_data_available w.fs run = false then .unavailable "No data available"
    else
      match read_result w (get_latest_parquet w.fs run "result") with
      | .error e => .unavailable ("Error loading data: " ++ e)
      | .ok result_df =>
        match read_emp w (get_latest_parquet w.fs run "employee_summary") with
        | .error e => .unavailable ("Error loading data: " ++ e)
        | .ok employee_summary_df =>
          match read_adj w (get_latest_parquet w.fs run "adjusted") with
          | .error e => .unavailable ("Error loading data: " ++ e)
          | .ok adjusted_df =>
            let plist := projects_list_of result_df
            .available
              { run_info :=
                  { run_id := run.run_id
                    period := run.period_string
                    created_at := run.created_at
                    status := run.status
                    run_has_updates := has_updates w.fs run }
                overall_kpis := overall_kpis_of result_df employee_summary_df plist
                projects_list := plist
                projects_data := plist.filterMap (fun l =>
                  (project_row result_df l).map (fun row => (l, mk_project_data employee_summary_df adjusted_df l row)))
                table_projets := plist.filterMap (fun l =>
                  (project_row result_df l).map (mk_table_row employee_summary_df l)) }

/-- `get_dashboard_context`: resolve the run, load its dashboard data, and
attach the run listing and the resolved run. -/
def get_dashboard_context (w : World) (db : DB) (uid : String) (run_id : Option String) :
    Dashboard × List Run × Option Run :=
  let run := dashboard_context_run db w.fs uid run_id
  (load_dashboard_data w run, get_available_runs db, run)

end data_access

/-! ## `billing/services/data_access_service.py` (`DataAccessService`, per-user instance) -/

namespace data_access_service

/-- `self._cache_prefix`. -/
def cache_prefix (user_ip user_identifier : String) : String :=
  "calc_data_" ++ user_ip ++ "_" ++ user_identifier

/-- `get_available_runs(include_running)`: all runs, or only the
`completed` ones; the archived flag is not consulted. -/
def get_available_runs (db : DB) (include_running : Bool) : List Run :=
  sort_by_created_desc
    (if include_running then db.runs else db.runs.filter (fun r => decide (r.status = .completed)))

/-- `get_latest_completed_run`: newest run with status `completed`. -/
def get_latest_completed_run (db : DB) : Option Run :=
  (sort_by_created_desc (db.runs.filter (fun r => decide (r.status = .completed)))).head?

/-- `get_user_preferred_run`: the stored preference's run, `None` when the
preference record is missing (`DoesNotExist` is caught). -/
def get_user_preferred_run (db : DB) (uid : String) : Option Run :=
  match findPref db uid with
  | some preference => derefPref db preference
  | none => none

/-- The fallback tail of `get_current_run`:
`if latest_run and latest_run.is_data_available():`.  `is_data_available`
is a `@property`, so whenever a latest completed run exists the
expression calls the property's boolean value and raises `TypeError`;
only the no-completed-run state reaches `return None`. -/
def current_run_fallback (db : DB) : Except PyError (Option Run) :=
  match get_latest_completed_run db with
  | some _latest => .error boolNotCallable
  | none => .ok none

/-- `get_current_run`:
`if preferred_run and preferred_run.status == 'completed' and preferred_run.is_data_available():`.
Short-circuiting reaches the property call only when a preferred run
exists with status `completed`, and then raises `TypeError`; otherwise
the latest-completed fallback runs (and itself raises whenever a
completed run exists).  The method can therefore only raise or return
`None`, never a run. -/
def get_current_run (db : DB) (uid : String) : Except PyError (Option Run) :=
  match get_user_preferred_run db uid with
  | some preferred =>
    if preferred.status = .completed then .error boolNotCallable
    else current_run_fallback db
  | none => current_run_fallback db

/-- Result-cache state: key, value, absolute expiry instant. -/
structure CacheEntry (α : Type) where
  value : α
  expires_at : Nat
deriving DecidableEq, Repr

structure CacheOf (α : Type) where
  entries : List (String × CacheEntry α)
deriving DecidableEq, Repr

/-- `cache.get(key)`: the stored value iff present and not yet expired. -/
def cache_get {α : Type} (c : CacheOf α) (now : Nat) (k : String) : Option α :=
  match c.entries.find? (fun e => e.1 == k) with
  | some e => if now < e.2.expires_at then some e.2.value else none
  | none => none

/-- `cache.set(key, value, ttl)`. -/
def cache_set {α : Type} (c : CacheOf α) (now : Nat) (k : String) (v : α) (ttl : Nat) : CacheOf α :=
  { entries := (k, { value := v, expires_at := now + ttl }) :: c.entries.filter (fun e => !(e.1 == k)) }

/-- `_invalidate_cache`: the body is `pass` — no key is removed. -/
def invalidate_cache {α : Type} (c : CacheOf α) : CacheOf α := c

/-- `set_user_preferred_run`: get-or-create the preference record inside a
transaction, point it at the run, then invalidate the user's cache. -/
def set_user_preferred_run {α : Type} (db : DB) (uid : String) (run : Run) (c : CacheOf α) :
    DB × CacheOf α :=
  let db' :=
    match findPref db uid with
    | some _ => { db with prefs := set_pref_update db.prefs uid run.run_id }
    | none => { db with prefs := db.prefs ++ [set_pref_create uid run.run_id] }
  (db', invalidate_cache c)

/-- `run_info` block of `get_calculation_data`. -/
structure ServiceRunInfo where
  run_id : String
  created_at : Nat
  updated_at : Nat
  status : Status
deriving DecidableEq, Repr

/-- Project-level KPI keys of `_compute_kpis` (present iff the projects
frame is nonempty).  The `total_revenue`, `total_cost`, `profit` and
`margin_pct` columns are absent from the snapshot schema, so their
`df.get(..., Series([0]))` sums are constantly 0. -/
structure ProjectKpisBlock where
  total_projects : Nat
  total_budget : ℚ
  total_revenue : ℚ
  total_cost : ℚ
  total_profit : ℚ
  avg_project_margin : ℚ
  project_budgets : List (String × ℚ)
  overall_margin_pct : ℚ
deriving DecidableEq, Repr

/-- Employee-level KPI keys of `_compute_kpis` (present iff the employees
frame is nonempty); `total_hours` and `utilization_pct` columns are absent
from the snapshot schema, and `grade` (lowercase) never matches the
`Grade` column, so no grade distribution is emitted. -/
structure EmployeeKpisBlock where
  total_employees : Nat
  total_hours : ℚ
  avg_utilization : ℚ
deriving DecidableEq, Repr

structure ServiceKpis where
  project_block : Option ProjectKpisBlock
  employee_block : Option EmployeeKpisBlock
deriving DecidableEq, Repr

/-- `_compute_kpis`. -/
def compute_kpis (projects_df : List ResultRow) (employees_df : EmpTable) : ServiceKpis :=
  { project_block :=
      if projects_df.isEmpty then none
      else some
        { total_projects := projects_df.length
          total_budget := column_sum (projects_df.map (fun r => r.estimees))
          total_revenue := 0
          total_cost := 0
          total_profit := 0
          avg_project_margin := 0
          project_budgets := projects_df.map (fun r => (r.libelle, r.estimees.getD 0))
          overall_margin_pct := 0 }
    employee_block :=
      if employees_df.rows.isEmpty then none
      else some
        { total_employees := employees_df.rows.length
          total_hours := 0
          avg_utilization := 0 } }

/-- The dictionary returned by `get_calculation_data`; `none` models an
absent `error` key / `None` run info / empty `summary_stats` and `kpis`
dictionaries. -/
structure CalcData where
  error : Option String
  run_info : Option ServiceRunInfo
  projects_data : List ResultRow
  employees_data : EmpTable
  summary_stats : Option Summary
  kpis : Option ServiceKpis
deriving DecidableEq, Repr

def empty_emp_table : EmpTable := { hasTotal := false, hasRate := false, hasHeures := false, rows := [] }

/-- The `get_calculation_data` result when no run resolves. -/
def no_data_result : CalcData :=
  { error := some "No calculation data available"
    run_info := none
    projects_data := []
    employees_data := empty_emp_table
    summary_stats := none
    kpis := none }

def run_info_of (run : Run) : ServiceRunInfo :=
  { run_id := run.run_id, created_at := run.created_at, updated_at := run.updated_at, status := run.status }

/-- The `get_calculation_data` result when loading raises. -/
def error_result (run : Run) (e : String) : CalcData :=
  { error := some e
    run_info := some (run_info_of run)
    projects_data := []
    employees_data := empty_emp_table
    summary_stats := none
    kpis := none }

/-- The run-resolution step of `get_calculation_data`: an explicit id is
looked up with a `status='completed'` filter, and on `DoesNotExist`
(unknown id or other status) resolution falls through to
`get_current_run` — whose `TypeError` propagates, since this resolution
sits outside the `try` block. -/
def calculation_data_run (db : DB) (uid : String) (run_id : Option String) :
    Except PyError (Option Run) :=
  match run_id with
  | some rid =>
    match db.runs.find? (fun r => r.run_id == rid && decide (r.status = .completed)) with
    | some r => .ok (some r)
    | none => get_current_run db uid
  | none => get_current_run db uid

/-- `get_calculation_data`: resolve the run (any `TypeError` from the
resolution propagates — it happens before the `try` block), serve from
the cache unless `force_refresh`, otherwise load the two snapshot
frames, compute KPIs, and cache the result for one hour; load failures
are caught and reported in the `error` field. -/
def get_calculation_data (w : World) (db : DB) (uid user_identifier : String)
    (c : CacheOf CalcData) (now : Nat) (run_id : Option String) (force_refresh : Bool) :
    Except PyError (CalcData × CacheOf CalcData) :=
  match calculation_data_run db uid run_id with
  | .error e => .error e
  | .ok none => .ok (no_data_result, c)
  | .ok (some run) =>
    let cache_key := cache_prefix uid user_identifier ++ "_data_" ++ run.run_id
    let cached := if force_refresh then none else cache_get c now cache_key
    match cached with
    | some v => .ok (v, c)
    | none =>
      match get_latest_parquet w.fs run "result", get_latest_parquet w.fs run "employee_summary" with
      | some projects_file, some employees_file =>
        match w.readResult projects_file, w.readEmp employees_file with
        | .ok projects_df, .ok employees_df =>
          let result : CalcData :=
            { error := none
              run_info := some (run_info_of run)
              projects_data := projects_df
              employees_data := employees_df
              summary_stats := load_summary_data w run
              kpis := some (compute_kpis projects_df employees_df) }
          .ok (result, cache_set c now cache_key result 3600)
        | .error e, _ => .ok (error_result run e, c)
        | _, .error e => .ok (error_result run e, c)
      | _, _ => .ok (error_result run "Required parquet files not found", c)

end data_access_service

/-! ## Exception-level embedding of the `data_access.py` run selectors

`Except PyError` makes the `DoesNotExist` exceptions of the Django ORM
explicit: each `objects.get` either returns the row or raises, and these
selectors catch exactly `DoesNotExist`.  (`data_access_service`'s
`get_current_run` is `Except`-valued directly, because its `TypeError`
is part of its behaviour.) -/

/-- `UserDashboardPreference.objects.get(...)`: raises on a missing row. -/
def findPrefE (db : DB) (uid : String) : Except PyError Pref :=
  match findPref db uid with
  | some p => .ok p
  | none => .error .doesNotExist

/-- `CalculationRun.objects.get(run_id=rid)`: raises on a missing row. -/
def findRunE (db : DB) (rid : String) : Except PyError Run :=
  match findRun db rid with
  | some r => .ok r
  | none => .error .doesNotExist

namespace data_access

/-- `get_preferred_run` with the `DoesNotExist` exception explicit: the
`try/except` catches it and falls back to the latest run. -/
def get_preferred_runE (db : DB) (fs : FS) (uid : String) : Except PyError (Option Run) :=
  match findPrefE db uid with
  | .ok prefs =>
    .ok (match derefPref db prefs with
         | some r => if is_data_available fs r then some r else get_latest_run db
         | none => get_latest_run db)
  | .error e =>
    match e with
    | .doesNotExist => .ok (get_latest_run db)
    | other => .error other

/-- The run-selection step of `get_dashboard_context` with exceptions
explicit: an unknown explicit id is caught and becomes `None`. -/
def dashboard_context_runE (db : DB) (fs : FS) (uid : String) (run_id : Option String) :
    Except PyError (Option Run) :=
  match run_id with
  | some rid =>
    match findRunE db rid with
    | .ok r => .ok (some r)
    | .error e =>
      match e with
      | .doesNotExist => .ok none
      | other => .error other
  | none => get_preferred_runE db fs uid

end data_access

/-! ## Spec-side statement of the realized-cost fallback chain -/

/-- The four-step fallback chain exactly as the specification words it:
(a) the explicit total-cost column sum iff the column is present and the
sum is strictly positive; else (b) the rate × realized-hours product sum
iff both columns are present and it is strictly positive; else (c) for
positive realized hours, realized hours × (adjusted cost / adjusted hours
when adjusted hours > 0, else the default rate 500); else (d) 0.8 × the
estimated budget. -/
def realized_cost_spec (slice : EmpTable) (heures_reelles heures_ajustees adjusted_cost budget_estime : ℚ) : ℚ :=
  let total_col_sum := column_sum (slice.rows.map (fun r => r.total))
  let rate_hours_sum := (slice.rows.map (fun r => r.rate.getD 0 * r.total_heures.getD 0)).sum
  if slice.hasTotal = true ∧ 0 < total_col_sum then total_col_sum
  else if slice.hasRate = true ∧ slice.hasHeures = true ∧ 0 < rate_hours_sum then rate_hours_sum
  else if 0 < heures_reelles then
    heures_reelles * (if 0 < heures_ajustees then adjusted_cost / heures_ajustees else 500)
  else (8 / 10) * budget_estime

/-- C1: the realized-cost computation of `load_dashboard_data` follows
the four-step fallback chain exactly as specified, for every employee
slice and every set of project scalars. -/
theorem realized_cost_fallback_chain :
    ∀ (slice : EmpTable) (heures_reelles heures_ajustees adjusted_cost budget_estime : ℚ),
      data_access.project_total_cost slice heures_reelles heures_ajustees adjusted_cost budget_estime
        = realized_cost_spec slice heures_reelles heures_ajustees adjusted_cost budget_estime := by
  intro slice hr ha ac be
  unfold data_access.project_total_cost realized_cost_spec
  by_cases h1 : slice.hasTotal = true ∧ 0 < slice.rows.length
  · simp only [if_pos h1]
    by_cases h2 : 0 < column_sum (slice.rows.map (fun r => r.total))
    · have hne : column_sum (slice.rows.map (fun r => r.total)) ≠ 0 := ne_of_gt h2
      simp only [if_pos h2, hne, false_and, if_neg, if_false, if_pos (And.intro h1.1 h2)]
    · simp only [if_neg h2]
      have hnot : ¬ (slice.hasTotal = true ∧ 0 < column_sum (slice.rows.map (fun r => r.total))) := by
        intro h; exact h2 h.2
      simp only [if_neg hnot]
      by_cases h3 : slice.hasRate = true ∧ slice.hasHeures = true
      · by_cases h4 : 0 < (slice.rows.map (fun r => r.rate.getD 0 * r.total_heures.getD 0)).sum
        · have hne4 : (slice.rows.map (fun r => r.rate.getD 0 * r.total_heures.getD 0)).sum ≠ 0 :=
            ne_of_gt h4
          simp [h3.1, h3.2, h4, hne4]
        · simp [h3.1, h3.2, h4, mul_comm]
      · have : ¬ (slice.hasRate = true ∧ slice.hasHeures = true ∧
            0 < (slice.rows.map (fun r => r.rate.getD 0 * r.total_heures.getD 0)).sum) := by
          intro h; exact h3 ⟨h.1, h.2.1⟩
        simp only [true_and, if_pos, if_neg h3] at *
        simp [h3, this, mul_comm]
  · have hzero : (if slice.hasTotal = true ∧ 0 < slice.rows.length then
        (if 0 < column_sum (slice.rows.map (fun r => r.total)) then
          column_sum (slice.rows.map (fun r => r.total)) else 0) else 0) = 0 := if_neg h1
    have hSc : ¬ (slice.hasTotal = true ∧ 0 < column_sum (slice.rows.map (fun r => r.total))) := by
      intro h
      rcases Nat.eq_zero_or_pos slice.rows.length with hl | hl
      · have hnil : slice.rows = [] := List.length_eq_zero.mp hl
        rw [hnil] at h
        simp [column_sum] at h
      · exact h1 ⟨h.1, hl⟩
    simp only [if_neg h1, if_neg hSc]
    by_cases h3 : slice.hasRate = true ∧ slice.hasHeures = true
    · by_cases h4 : 0 < (slice.rows.map (fun r => r.rate.getD 0 * r.total_heures.getD 0)).sum
      · have hne4 : (slice.rows.map (fun r => r.rate.getD 0 * r.total_heures.getD 0)).sum ≠ 0 :=
          ne_of_gt h4
        simp [h3.1, h3.2, h4, hne4]
      · simp [h3.1, h3.2, h4, mul_comm]
    · have : ¬ (slice.hasRate = true ∧ slice.hasHeures = true ∧
          0 < (slice.rows.map (fun r => r.rate.getD 0 * r.total_heures.getD 0)).sum) := by
        intro h; exact h3 ⟨h.1, h.2.1⟩
      simp [h3, this, mul_comm]

/-! ## C5: snapshot resolution policy -/

/-- C5: for every run and logical table name, `get_latest_parquet`
returns the updated physical file when it exists, else the initial file
when it exists, else none — in particular the updated file wins whenever
both exist. -/
theorem snapshot_resolver_policy :
    ∀ (fs : FS) (run : Run) (base : String),
      (fs.fileExists (updated_path run base) = true →
        get_latest_parquet fs run base = some (updated_path run base)) ∧
      (fs.fileExists (updated_path run base) = false →
        fs.fileExists (initial_path run base) = true →
        get_latest_parquet fs run base = some (initial_path run base)) ∧
      (fs.fileExists (updated_path run base) = false →
        fs.fileExists (initial_path run base) = false →
        get_latest_parquet fs run base = none) := by
  intro fs run base
  refine ⟨fun hu => ?_, fun hu hi => ?_, fun hu hi => ?_⟩ <;>
    simp [get_latest_parquet, hu]
  · simp [hi]
  · simp [hi]

def runW5 : Run :=
  { run_id := "run-5", created_at := 10, updated_at := 10, status := .updated,
    is_archived := false, data_directory := "runs/run-5", period_string := "Mai 2024" }

/-- A directory holding both physical versions of `result`. -/
def fsW5 : FS :=
  { dirs := ["media/runs/run-5"]
    files := ["media/runs/run-5/result_updated.parquet", "media/runs/run-5/result_initial.parquet"] }

/-- Witness for C5: with both versions present, the updated one is
returned. -/
theorem snapshot_resolver_policy_witness :
    get_latest_parquet fsW5 runW5 "result" = some (updated_path runW5 "result") :=
  (snapshot_resolver_policy fsW5 runW5 "result").1 (by rfl)

/-! ## C4: determinism and (the failure of) totality -/

def runC4 : Run :=
  { run_id := "r-4", created_at := 4, updated_at := 4, status := .completed,
    is_archived := false, data_directory := "runs/r4", period_string := "Avr 2024" }

/-- The completed run's snapshot files exist: nothing is missing. -/
def fsC4 : FS :=
  { dirs := ["media/runs/r4"]
    files := ["media/runs/r4/result_initial.parquet", "media/runs/r4/employee_summary_initial.parquet"] }

def dbC4 : DB := { runs := [runC4], prefs := [] }

/-- Counterexample to C4: resolution is not total.  In a state where a
completed run exists (no run or preference is missing, and the
filesystem is healthy), `get_current_run` raises `TypeError` — the
`is_data_available` property is called as a method — instead of
returning a definite run-or-none answer. -/
theorem resolution_totality_counterexample :
    data_access_service.get_current_run dbC4 "u" = .error boolNotCallable ∧
    runC4.status = .completed ∧ runC4 ∈ dbC4.runs ∧
    is_data_available fsC4 runC4 = true := by
  refine ⟨rfl, rfl, by decide, by decide⟩

/-- C4 (amended): resolution in `data_access.py` is deterministic and
total — each selector equals `.ok` of a pure function of the state, with
`DoesNotExist` always caught.  In `data_access_service.py`,
`get_current_run` (also the no-explicit-id path of run resolution in
`get_calculation_data`) is deterministic but not total: for every state
it either returns no run or raises the `TypeError` from calling the
`is_data_available` property — it never returns a run, and a missing run
or preference still never escapes as `DoesNotExist`. -/
theorem run_selector_determinism_amended :
    ∀ (db : DB) (fs : FS) (uid : String) (run_id : Option String),
      data_access.get_preferred_runE db fs uid = .ok (data_access.get_preferred_run db fs uid) ∧
      data_access.dashboard_context_runE db fs uid run_id
        = .ok (data_access.dashboard_context_run db fs uid run_id) ∧
      (data_access_service.get_current_run db uid = .ok none ∨
        data_access_service.get_current_run db uid = .error boolNotCallable) ∧
      data_access_service.calculation_data_run db uid none
        = data_access_service.get_current_run db uid := by
  intro db fs uid run_id
  have hpref : data_access.get_preferred_runE db fs uid
      = .ok (data_access.get_preferred_run db fs uid) := by
    cases h : findPref db uid with
    | none =>
      simp [data_access.get_preferred_runE, data_access.get_preferred_run, findPrefE, h]
    | some p =>
      cases hd : derefPref db p <;>
        simp [data_access.get_preferred_runE, data_access.get_preferred_run, findPrefE, h, hd]
  refine ⟨hpref, ?_, ?_, rfl⟩
  · cases run_id with
    | none => exact hpref
    | some rid =>
      cases h : findRun db rid <;>
        simp [data_access.dashboard_context_runE, data_access.dashboard_context_run, findRunE, h]
  · have hfall : data_access_service.current_run_fallback db = .ok none ∨
        data_access_service.current_run_fallback db = .error boolNotCallable := by
      cases h : data_access_service.get_latest_completed_run db with
      | none => exact Or.inl (by simp [data_access_service.current_run_fallback, h])
      | some latest => exact Or.inr (by simp [data_access_service.current_run_fallback, h])
    cases h : data_access_service.get_user_preferred_run db uid with
    | none => simpa [data_access_service.get_current_run, h] using hfall
    | some preferred =>
      by_cases hst : preferred.status = .completed
      · exact Or.inr (by simp [data_access_service.get_current_run, h, hst])
      · simpa [data_access_service.get_current_run, h, hst] using hfall

/-! ## C3: which checks guard the stored preference -/

def runC3 : Run :=
  { run_id := "r-failed", created_at := 5, updated_at := 5, status := .failed,
    is_archived := false, data_directory := "runs/rf", period_string := "Jan 2024" }

/-- The failed run's snapshot files exist, so its data is available. -/
def fsC3 : FS :=
  { dirs := ["media/runs/rf"]
    files := ["media/runs/rf/result_initial.parquet", "media/runs/rf/employee_summary_initial.parquet"] }

def dbC3 : DB :=
  { runs := [runC3]
    prefs := [{ user_identifier := "u", preferred_run := some "r-failed" }] }

/-- Counterexample to C3: `get_preferred_run` returns the stored
preference although its status is `failed` (it never checks status); the
most-recent-acceptable-run fallback would have returned nothing. -/
theorem preference_status_unchecked_counterexample :
    data_access.get_preferred_run dbC3 fsC3 "u" = some runC3 ∧
    runC3.status = .failed ∧
    data_access.get_latest_run dbC3 = none := by
  refine ⟨by decide, rfl, by decide⟩

/-- C3 (amended): when a stored preference dereferences to a run `r`,
`data_access.get_preferred_run` uses `r` iff its data is available — the
status is not checked — while `data_access_service.get_current_run`
never uses `r`: when `r`'s status is `completed` the availability check
itself raises `TypeError` (the `is_data_available` property is called as
a method), and otherwise resolution skips the preference and falls to
the latest-completed fallback. -/
theorem preference_checks_amended :
    ∀ (db : DB) (fs : FS) (uid : String) (p : Pref) (r : Run),
      findPref db uid = some p → derefPref db p = some r →
      (data_access.get_preferred_run db fs uid =
        if is_data_available fs r = true then some r else data_access.get_latest_run db) ∧
      (data_access_service.get_current_run db uid =
        if r.status = .completed then .error boolNotCallable
        else data_access_service.current_run_fallback db) := by
  intro db fs uid p r h1 h2
  constructor
  · by_cases hav : is_data_available fs r = true
    · simp [data_access.get_preferred_run, h1, h2, hav]
    · rw [Bool.not_eq_true] at hav
      simp [data_access.get_preferred_run, h1, h2, hav]
  · by_cases hst : r.status = .completed
    · simp [data_access_service.get_current_run, data_access_service.get_user_preferred_run,
        h1, h2, hst]
    · simp [data_access_service.get_current_run, data_access_service.get_user_preferred_run,
        h1, h2, hst]

def runC3w : Run :=
  { run_id := "r-ok", created_at := 6, updated_at := 6, status := .completed,
    is_archived := false, data_directory := "runs/rok", period_string := "Fev 2024" }

def prefC3w : Pref := { user_identifier := "u", preferred_run := some "r-ok" }

def fsC3w : FS :=
  { dirs := ["media/runs/rok"]
    files := ["media/runs/rok/result_initial.parquet", "media/runs/rok/employee_summary_initial.parquet"] }

def dbC3w : DB := { runs := [runC3w], prefs := [prefC3w] }

/-- Witness for the amended C3 at a concrete state. -/
theorem preference_checks_amended_witness :
    (data_access.get_preferred_run dbC3w fsC3w "u" =
      if is_data_available fsC3w runC3w = true then some runC3w else data_access.get_latest_run dbC3w) ∧
    (data_access_service.get_current_run dbC3w "u" =
      if runC3w.status = .completed then .error boolNotCallable
      else data_access_service.current_run_fallback dbC3w) :=
  preference_checks_amended dbC3w fsC3w "u" prefC3w runC3w (by decide) (by decide)

/-! ## C2: explicit run id and the fallthrough behaviour -/

def runC2 : Run :=
  { run_id := "r-latest", created_at := 10, updated_at := 10, status := .completed,
    is_archived := false, data_directory := "runs/rl", period_string := "Mar 2024" }

def fsC2 : FS :=
  { dirs := ["media/runs/rl"]
    files := ["media/runs/rl/result_initial.parquet", "media/runs/rl/employee_summary_initial.parquet"] }

def dbC2 : DB := { runs := [runC2], prefs := [] }

/-- Counterexample to C2: in `get_dashboard_context` an explicit run id
that is not found yields no run at all, although the next priority step
(the preference chain) would have yielded the latest run. -/
theorem explicit_id_no_fallthrough_counterexample :
    data_access.dashboard_context_run dbC2 fsC2 "u" (some "missing") = none ∧
    data_access.get_preferred_run dbC2 fsC2 "u" = some runC2 := by
  refine ⟨by decide, by decide⟩

/-- C2 (amended): an explicit id that does not resolve to a completed
run makes `get_calculation_data` continue with `get_current_run`, but
that fall-through never produces a run: it raises `TypeError` (the
`is_data_available` property is called as a method) whenever a completed
preferred or latest run exists, and yields no run otherwise.  In
`get_dashboard_context` an explicit id that is not found resolves to no
run, with no fallthrough. -/
theorem explicit_id_resolution_amended :
    ∀ (db : DB) (fs : FS) (uid rid : String),
      (db.runs.find? (fun r => r.run_id == rid && decide (r.status = .completed)) = none →
        data_access_service.calculation_data_run db uid (some rid)
          = data_access_service.get_current_run db uid) ∧
      (data_access_service.get_current_run db uid = .ok none ∨
        data_access_service.get_current_run db uid = .error boolNotCallable) ∧
      (findRun db rid = none →
        data_access.dashboard_context_run db fs uid (some rid) = none) := by
  intro db fs uid rid
  refine ⟨?_, ?_, ?_⟩
  · intro h
    simp [data_access_service.calculation_data_run, h]
  · have hfall : data_access_service.current_run_fallback db = .ok none ∨
        data_access_service.current_run_fallback db = .error boolNotCallable := by
      cases h : data_access_service.get_latest_completed_run db with
      | none => exact Or.inl (by simp [data_access_service.current_run_fallback, h])
      | some latest => exact Or.inr (by simp [data_access_service.current_run_fallback, h])
    cases h : data_access_service.get_user_preferred_run db uid with
    | none => simpa [data_access_service.get_current_run, h] using hfall
    | some preferred =>
      by_cases hst : preferred.status = .completed
      · exact Or.inr (by simp [data_access_service.get_current_run, h, hst])
      · simpa [data_access_service.get_current_run, h, hst] using hfall
  · intro h
    simp [data_access.dashboard_context_run, h]

/-- Witness for the amended C2 at a concrete state. -/
theorem explicit_id_resolution_amended_witness :
    (data_access_service.calculation_data_run dbC2 "u" (some "missing")
      = data_access_service.get_current_run dbC2 "u") ∧
    (data_access.dashboard_context_run dbC2 fsC2 "u" (some "missing") = none) :=
  ⟨(explicit_id_resolution_amended dbC2 fsC2 "u" "missing").1 (by decide),
   (explicit_id_resolution_amended dbC2 fsC2 "u" "missing").2.2 (by decide)⟩

/-! ## C8: the run listings and the canonical ordering -/

instance : DecidableRel (fun a b : Run => b.created_at ≤ a.created_at) :=
  fun _ _ => Nat.decLe _ _

instance : IsTotal Run (fun a b => b.created_at ≤ a.created_at) :=
  ⟨fun a b => Nat.le_total b.created_at a.created_at⟩

instance : IsTrans Run (fun a b => b.created_at ≤ a.created_at) :=
  ⟨fun _ _ _ h1 h2 => Nat.le_trans h2 h1⟩

def runC8a : Run :=
  { run_id := "r-archived", created_at := 7, updated_at := 7, status := .completed,
    is_archived := true, data_directory := "runs/ra", period_string := "Avr 2024" }

def runC8u : Run :=
  { run_id := "r-updated", created_at := 8, updated_at := 8, status := .updated,
    is_archived := false, data_directory := "runs/ru", period_string := "Avr 2024" }

def dbC8 : DB := { runs := [runC8a, runC8u], prefs := [] }

/-- Counterexample to C8: `data_access_service.get_available_runs`
returns an archived run and omits a non-archived `updated` run, so the
listing is not "exactly status ∈ {completed, updated} and not archived". -/
theorem run_listing_counterexample :
    data_access_service.get_available_runs dbC8 false = [runC8a] ∧
    runC8a.is_archived = true ∧
    runC8u.status = .updated ∧ runC8u.is_archived = false ∧ runC8u ∈ dbC8.runs := by
  refine ⟨by decide, rfl, rfl, rfl, by decide⟩

/-- C8 (amended): `data_access.get_available_runs` returns exactly the
non-archived runs with status in {completed, updated}, newest first, and
`get_latest_run` is its head; `data_access_service.get_available_runs`
(without `include_running`) instead returns exactly the `completed` runs
— archived or not — newest first, and `get_latest_completed_run`, the
latest-run fallback of `get_current_run`, is the head of that same
ordering. -/
theorem run_listing_amended :
    ∀ db : DB,
      List.Perm (data_access.get_available_runs db)
        (db.runs.filter
          (fun r => decide ((r.status = .completed ∨ r.status = .updated) ∧ r.is_archived = false))) ∧
      List.Sorted (fun a b : Run => b.created_at ≤ a.created_at) (data_access.get_available_runs db) ∧
      data_access.get_latest_run db = (data_access.get_available_runs db).head? ∧
      List.Perm (data_access_service.get_available_runs db false)
        (db.runs.filter (fun r => decide (r.status = .completed))) ∧
      List.Sorted (fun a b : Run => b.created_at ≤ a.created_at)
        (data_access_service.get_available_runs db false) ∧
      data_access_service.get_latest_completed_run db
        = (data_access_service.get_available_runs db false).head? := by
  intro db
  refine ⟨List.perm_insertionSort _ _, List.sorted_insertionSort _ _, rfl,
    List.perm_insertionSort _ _, List.sorted_insertionSort _ _, rfl⟩

/-! ## C9: preference set-then-get round trip -/

/-- Updating the single preference row of `uid` commutes with looking it
up: the lookup finds the updated row. -/
theorem findPref_after_update (ps : List Pref) (uid rid : String) :
    (set_pref_update ps uid rid).find? (fun p => p.user_identifier == uid)
      = (ps.find? (fun p => p.user_identifier == uid)).map
          (fun p => { p with preferred_run := some rid }) := by
  induction ps with
  | nil => rfl
  | cons p ps ih =>
    unfold set_pref_update at ih ⊢
    by_cases h : (p.user_identifier == uid) = true
    · rw [List.map_cons, if_pos h, List.find?_cons, List.find?_cons]
      simp [h]
    · rw [List.map_cons, if_neg h, List.find?_cons, List.find?_cons]
      simp only [h]
      exact ih

/-- Appending the freshly created preference row of `uid` makes the
lookup find it, provided no row for `uid` existed. -/
theorem findPref_after_create (ps : List Pref) (uid rid : String)
    (h : ps.find? (fun p => p.user_identifier == uid) = none) :
    (ps ++ [set_pref_create uid rid]).find? (fun p => p.user_identifier == uid)
      = some (set_pref_create uid rid) := by
  rw [List.find?_append, h]
  simp [List.find?, set_pref_create]

/-- `get_preferred_run` returns the dereferenced preference when its data
is available. -/
theorem get_preferred_run_of_pref (db : DB) (fs : FS) (uid : String) (q : Pref) (r : Run)
    (hq : findPref db uid = some q) (hd : derefPref db q = some r)
    (hav : is_data_available fs r = true) :
    data_access.get_preferred_run db fs uid = some r := by
  simp [data_access.get_preferred_run, hq, hd, hav]

/-- C9: for a run `r` that exists, is completed and is data-available,
`set_preferred_run` succeeds and a subsequent `get_dashboard_context`
resolution with no explicit id returns `r`. -/
theorem preference_roundtrip :
    ∀ (db : DB) (fs : FS) (uid rid : String) (r : Run),
      findRun db rid = some r →
      r.status = .completed →
      is_data_available fs r = true →
      (data_access.set_preferred_run db uid rid).2 = true ∧
      data_access.dashboard_context_run (data_access.set_preferred_run db uid rid).1 fs uid none
        = some r := by
  intro db fs uid rid r hfind _hst hav
  cases hp : findPref db uid with
  | some p =>
    have hset : data_access.set_preferred_run db uid rid =
        ({ db with prefs := set_pref_update db.prefs uid rid }, true) := by
      unfold data_access.set_preferred_run
      rw [hfind, hp]
    rw [hset]
    refine ⟨rfl, ?_⟩
    have hp' : findPref { db with prefs := set_pref_update db.prefs uid rid } uid
        = some { p with preferred_run := some rid } := by
      unfold findPref at hp ⊢
      rw [findPref_after_update db.prefs uid rid, hp]
      rfl
    have hd : derefPref { db with prefs := set_pref_update db.prefs uid rid }
        { p with preferred_run := some rid } = some r := by
      unfold derefPref findRun
      unfold findRun at hfind
      simpa using hfind
    exact get_preferred_run_of_pref _ fs uid _ r hp' hd hav
  | none =>
    have hset : data_access.set_preferred_run db uid rid =
        ({ db with prefs := db.prefs ++ [set_pref_create uid rid] }, true) := by
      unfold data_access.set_preferred_run
      rw [hfind, hp]
    rw [hset]
    refine ⟨rfl, ?_⟩
    have hp' : findPref { db with prefs := db.prefs ++ [set_pref_create uid rid] } uid
        = some (set_pref_create uid rid) := by
      unfold findPref at hp ⊢
      exact findPref_after_create db.prefs uid rid hp
    have hd : derefPref { db with prefs := db.prefs ++ [set_pref_create uid rid] }
        (set_pref_create uid rid) = some r := by
      unfold derefPref findRun set_pref_create
      unfold findRun at hfind
      simpa using hfind
    exact get_preferred_run_of_pref _ fs uid _ r hp' hd hav

def runC9 : Run :=
  { run_id := "r-9", created_at := 9, updated_at := 9, status := .completed,
    is_archived := false, data_directory := "runs/r9", period_string := "Sep 2024" }

def fsC9 : FS :=
  { dirs := ["media/runs/r9"]
    files := ["media/runs/r9/result_initial.parquet", "media/runs/r9/employee_summary_initial.parquet"] }

def dbC9 : DB := { runs := [runC9], prefs := [] }

/-- Witness for C9 at a concrete state. -/
theorem preference_roundtrip_witness :
    (data_access.set_preferred_run dbC9 "u" "r-9").2 = true ∧
    data_access.dashboard_context_run (data_access.set_preferred_run dbC9 "u" "r-9").1 fsC9 "u" none
      = some runC9 :=
  preference_roundtrip dbC9 fsC9 "u" "r-9" runC9 (by decide) rfl (by decide)

/-! ## C6: aggregation never raises past its boundary -/

/-- C6: `load_dashboard_data` always returns a tagged result, and
whenever the run is `None`, its data is not available, or any of the
three required snapshot reads fails, the result is tagged unavailable
with a nonempty reason. -/
theorem aggregation_boundary :
    ∀ (w : World) (run? : Option Run),
      ((run? = none ∨
        (∃ r, run? = some r ∧ is_data_available w.fs r = false) ∨
        (∃ r er, run? = some r ∧ read_result w (get_latest_parquet w.fs r "result") = .error er) ∨
        (∃ r ee, run? = some r ∧ read_emp w (get_latest_parquet w.fs r "employee_summary") = .error ee) ∨
        (∃ r ea, run? = some r ∧ read_adj w (get_latest_parquet w.fs r "adjusted") = .error ea)) →
        ∃ e, data_access.load_dashboard_data w run? = .unavailable e ∧ 0 < e.length) ∧
      ((∃ e, data_access.load_dashboard_data w run? = .unavailable e) ∨
       (∃ p, data_access.load_dashboard_data w run? = .available p)) := by
  intro w run?
  have hlen : ∀ s : String, 0 < ("Error loading data: " ++ s).length := by
    intro s
    have : ("Error loading data: " ++ s).length = "Error loading data: ".length + s.length :=
      String.length_append _ s
    rw [this]
    have h20 : 0 < "Error loading data: ".length := by decide
    omega
  constructor
  · intro h
    cases run? with
    | none =>
      exact ⟨"No data available", rfl, by decide⟩
    | some r =>
      by_cases hav : is_data_available w.fs r = false
      · refine ⟨"No data available", ?_, by decide⟩
        simp [data_access.load_dashboard_data, hav]
      · rw [Bool.not_eq_false] at hav
        cases hr : read_result w (get_latest_parquet w.fs r "result") with
        | error er =>
          refine ⟨"Error loading data: " ++ er, ?_, hlen er⟩
          simp [data_access.load_dashboard_data, hav, hr]
        | ok rdf =>
          cases he : read_emp w (get_latest_parquet w.fs r "employee_summary") with
          | error ee =>
            refine ⟨"Error loading data: " ++ ee, ?_, hlen ee⟩
            simp [data_access.load_dashboard_data, hav, hr, he]
          | ok edf =>
            cases ha : read_adj w (get_latest_parquet w.fs r "adjusted") with
            | error ea =>
              refine ⟨"Error loading data: " ++ ea, ?_, hlen ea⟩
              simp [data_access.load_dashboard_data, hav, hr, he, ha]
            | ok adf =>
              exfalso
              rcases h with h | ⟨r', hr', hav'⟩ | ⟨r', er, hr', hread⟩ | ⟨r', ee, hr', hread⟩ | ⟨r', ea, hr', hread⟩
              · exact Option.noConfusion h
              · cases Option.some.injEq .. ▸ hr' with
                | refl => rw [hav] at hav'; exact Bool.noConfusion hav'
              · cases hr' with
                | refl => rw [hr] at hread; exact Except.noConfusion hread
              · cases hr' with
                | refl => rw [he] at hread; exact Except.noConfusion hread
              · cases hr' with
                | refl => rw [ha] at hread; exact Except.noConfusion hread
  · cases hload : data_access.load_dashboard_data w run? with
    | unavailable e => exact Or.inl ⟨e, rfl⟩
    | available p => exact Or.inr ⟨p, rfl⟩

/-- A world whose reads all fail; used to witness C6. -/
def wC6 : World :=
  { fs := { dirs := [], files := [] }
    readResult := fun _ => .error "parquet read failed"
    readEmp := fun _ => .error "parquet read failed"
    readAdj := fun _ => .error "parquet read failed" }

/-- Witness for C6: with no run at all, the result is tagged
unavailable. -/
theorem aggregation_boundary_witness :
    ∃ e, data_access.load_dashboard_data wC6 none = .unavailable e ∧ 0 < e.length :=
  (aggregation_boundary wC6 none).1 (Or.inl rfl)

/-! ## C10: duplicated project labels -/

namespace data_access

/-- The payload of an available dashboard result, if any. -/
def Dashboard.payload? : Dashboard → Option Payload
  | .unavailable _ => none
  | .available p => some p

end data_access

def rowC10a : ResultRow :=
  { libelle := "P", estimees := some 100, adjusted_cost := some 80, ecart := some (-20),
    total_heures := some 10, adjusted_hours := some 8, heures_retirees := some 2 }

def rowC10b : ResultRow :=
  { libelle := "P", estimees := some 200, adjusted_cost := some 150, ecart := some (-50),
    total_heures := some 20, adjusted_hours := some 15, heures_retirees := some 5 }

/-- A result table with two rows sharing the label "P". -/
def dfC10 : List ResultRow := [rowC10a, rowC10b]

def empC10 : EmpTable := { hasTotal := false, hasRate := false, hasHeures := false, rows := [] }

def runC10 : Run :=
  { run_id := "r10", created_at := 10, updated_at := 10, status := .completed,
    is_archived := false, data_directory := "runs/r10", period_string := "Oct 2024" }

def fsC10 : FS :=
  { dirs := ["media/runs/r10"]
    files := ["media/runs/r10/result_initial.parquet",
              "media/runs/r10/employee_summary_initial.parquet",
              "media/runs/r10/adjusted_initial.parquet"] }

def wC10 : World :=
  { fs := fsC10
    readResult := fun p =>
      if p == "media/runs/r10/result_initial.parquet" then .ok dfC10 else .error "missing"
    readEmp := fun p =>
      if p == "media/runs/r10/employee_summary_initial.parquet" then .ok empC10 else .error "missing"
    readAdj := fun p =>
      if p == "media/runs/r10/adjusted_initial.parquet" then .ok [] else .error "missing" }

/-- C10: per-project figures come from the first row carrying the label
(`project_row` is a first-match lookup and every per-project scalar is
read off that row), overall KPI totals sum over every row, and on a
concrete table with a duplicated label the dashboard's per-project budget
column shows 100 while the overall budget is 300. -/
theorem duplicate_label_kpis :
    (∀ (df₁ df₂ : List ResultRow) (r : ResultRow) (label : String),
       (∀ x ∈ df₁, x.libelle ≠ label) → r.libelle = label →
       data_access.project_row (df₁ ++ r :: df₂) label = some r) ∧
    (∀ (df : List ResultRow) (emp : EmpTable) (plist : List String),
       (data_access.overall_kpis_of df emp plist).totalBudgetEstime
          = column_sum (df.map (fun r => r.estimees)) ∧
       (data_access.overall_kpis_of df emp plist).totalAdjustedCost
          = column_sum (df.map (fun r => r.adjusted_cost)) ∧
       (data_access.overall_kpis_of df emp plist).totalEcart
          = column_sum (df.map (fun r => r.ecart))) ∧
    ((data_access.load_dashboard_data wC10 (some runC10)).payload?.map
        (fun p => p.table_projets.map (fun t => t.estimees)) = some [100] ∧
     (data_access.load_dashboard_data wC10 (some runC10)).payload?.map
        (fun p => p.overall_kpis.totalBudgetEstime)
       = some (column_sum (dfC10.map (fun r => r.estimees))) ∧
     column_sum (dfC10.map (fun r => r.estimees)) = 300 ∧
     (100 : ℚ) ≠ 300) := by
  refine ⟨?_, ?_, ?_, ?_, ?_, by norm_num⟩
  · intro df₁ df₂ r label hnone hr
    unfold data_access.project_row
    rw [List.find?_append]
    have h1 : df₁.find? (fun x => x.libelle == label) = none := by
      rw [List.find?_eq_none]
      intro x hx
      simp [hnone x hx]
    rw [h1]
    simp [List.find?, hr]
  · intro df emp plist
    exact ⟨rfl, rfl, rfl⟩
  · decide
  · rfl
  · norm_num [column_sum, dfC10, rowC10a, rowC10b]

/-- Witness for C10: on the duplicated table, the first "P" row is the
one `project_row` selects. -/
theorem duplicate_label_kpis_witness :
    data_access.project_row ([] ++ rowC10a :: [rowC10b]) "P" = some rowC10a :=
  duplicate_label_kpis.1 [] [rowC10b] rowC10a "P" (by intro x hx; cases hx) rfl

/-! ## C7: cache invalidation is a no-op (`_invalidate_cache` is `pass`) -/

def runC7 : Run :=
  { run_id := "r7", created_at := 100, updated_at := 100, status := .completed,
    is_archived := false, data_directory := "runs/r7", period_string := "Juin 2024" }

def dbC7 : DB := { runs := [runC7], prefs := [] }

/-- The initially computed result table. -/
def dfC7old : List ResultRow :=
  [{ libelle := "A", estimees := some 100, adjusted_cost := some 90, ecart := some (-10),
     total_heures := some 10, adjusted_hours := some 9, heures_retirees := some 1 }]

/-- The manually adjusted result table written later by the external
pipeline as `result_updated.parquet`. -/
def dfC7new : List ResultRow :=
  [{ libelle := "A", estimees := some 250, adjusted_cost := some 240, ecart := some (-10),
     total_heures := some 10, adjusted_hours := some 9, heures_retirees := some 1 }]

def empC7 : EmpTable :=
  { hasTotal := true, hasRate := true, hasHeures := true,
    rows := [{ libelle := "A", nom := "X", total := some 50, rate := some 5, total_heures := some 10 }] }

/-- World before the adjustment: only the initial snapshots exist. -/
def wC7a : World :=
  { fs := { dirs := ["media/runs/r7"]
            files := ["media/runs/r7/result_initial.parquet",
                      "media/runs/r7/employee_summary_initial.parquet"] }
    readResult := fun p =>
      if p == "media/runs/r7/result_initial.parquet" then .ok dfC7old else .error "missing"
    readEmp := fun p =>
      if p == "media/runs/r7/employee_summary_initial.parquet" then .ok empC7 else .error "missing"
    readAdj := fun _ => .error "missing" }

/-- World after the adjustment: an updated result snapshot appeared, so a
fresh computation would see `dfC7new`. -/
def wC7b : World :=
  { fs := { dirs := ["media/runs/r7"]
            files := ["media/runs/r7/result_initial.parquet",
                      "media/runs/r7/employee_summary_initial.parquet",
                      "media/runs/r7/result_updated.parquet"] }
    readResult := fun p =>
      if p == "media/runs/r7/result_updated.parquet" then .ok dfC7new
      else if p == "media/runs/r7/result_initial.parquet" then .ok dfC7old
      else .error "missing"
    readEmp := fun p =>
      if p == "media/runs/r7/employee_summary_initial.parquet" then .ok empC7 else .error "missing"
    readAdj := fun _ => .error "missing" }

/-- First call at time 0, with the explicit run id "r7" (the explicit-id
lookup succeeds, so run resolution does not reach the raising
`get_current_run`): computes from the initial snapshots and caches the
result for one hour. -/
def c7_first : Except PyError (data_access_service.CalcData × data_access_service.CacheOf data_access_service.CalcData) :=
  data_access_service.get_calculation_data wC7a dbC7 "u" "" { entries := [] } 0 (some "r7") false

/-- The value computed and cached by the first call. -/
def c7_v0 : data_access_service.CalcData :=
  match c7_first with
  | .ok p => p.1
  | .error _ => data_access_service.no_data_result

/-- The cache state left by the first call. -/
def c7_cache1 : data_access_service.CacheOf data_access_service.CalcData :=
  match c7_first with
  | .ok p => p.2
  | .error _ => { entries := [] }

/-- The user then sets a preference, which calls `_invalidate_cache`. -/
def c7_set : DB × data_access_service.CacheOf data_access_service.CalcData :=
  data_access_service.set_user_preferred_run dbC7 "u" runC7 c7_cache1

/-- Second call at time 10 (well inside the TTL), again with the
explicit run id, after the invalidation and after the snapshots
changed. -/
def c7_second : Except PyError (data_access_service.CalcData × data_access_service.CacheOf data_access_service.CalcData) :=
  data_access_service.get_calculation_data wC7b c7_set.1 "u" "" c7_set.2 10 (some "r7") false

/-- The same call with `force_refresh`, showing what a recomputation
would have returned. -/
def c7_forced : Except PyError (data_access_service.CalcData × data_access_service.CacheOf data_access_service.CalcData) :=
  data_access_service.get_calculation_data wC7b c7_set.1 "u" "" c7_set.2 10 (some "r7") true

/-- C7 is violated by the code: `_invalidate_cache` removes nothing, so
the get-or-compute call issued after a preference change still returns
the previously cached entry (budget 100) although recomputing from the
snapshot files would return the updated figures (budget 250). -/
theorem cache_invalidation_noop :
    (∀ c : data_access_service.CacheOf data_access_service.CalcData,
      data_access_service.invalidate_cache c = c) ∧
    c7_second = .ok (c7_v0, c7_cache1) ∧
    c7_v0.kpis.map (fun k => k.project_block.map (fun b => b.total_budget))
      = some (some (column_sum (dfC7old.map (fun r => r.estimees)))) ∧
    (Except.toOption c7_forced).map
        (fun p => p.1.kpis.map (fun k => k.project_block.map (fun b => b.total_budget)))
      = some (some (some (column_sum (dfC7new.map (fun r => r.estimees))))) ∧
    column_sum (dfC7old.map (fun r => r.estimees)) = 100 ∧
    column_sum (dfC7new.map (fun r => r.estimees)) = 250 ∧
    (100 : ℚ) ≠ 250 := by
  refine ⟨fun _ => rfl, rfl, rfl, rfl, ?_, ?_, by norm_num⟩
  · norm_num [column_sum, dfC7old]
  · norm_num [column_sum, dfC7new]

end Billing
